import Mathlib

/-!
Verification of the remote session and OAuth subsystem of Nano-Banana-MCP.

The definitions below are a shallow embedding of `src/auth.ts` and
`src/remote.ts`:

* JavaScript `Map<string, V>` objects become functions `String → Option V`
  (`SMap V`) with pointwise `set` / `del` update.
* `Date.now() / 1000` (a fractional number of seconds) is passed in as a
  rational parameter `now : ℚ`; `Math.floor` becomes `Int.floor`.
* `randomBytes(..).toString("hex")` and `randomUUID()` results are passed in
  as explicit string parameters (`code`, `newToken`, `newId`).
* a `throw new Error(msg)` becomes the `Except.error msg` half of a result
  paired with the provider state at the time of the throw, so that the state
  mutations performed before a throw (e.g. token eviction) stay observable.
-/

/-- In-memory string-keyed map, the embedding of a JS `Map<string, V>`. -/
def SMap (V : Type) : Type := String → Option V

namespace SMap

def empty {V : Type} : SMap V := fun _ => none

def get {V : Type} (m : SMap V) (k : String) : Option V := m k

def set {V : Type} (m : SMap V) (k : String) (v : V) : SMap V :=
  fun k' => if k' = k then some v else m k'

def del {V : Type} (m : SMap V) (k : String) : SMap V :=
  fun k' => if k' = k then none else m k'

theorem get_set_self {V : Type} (m : SMap V) (k : String) (v : V) :
    (m.set k v).get k = some v := by
  simp [get, set]

theorem get_set_ne {V : Type} (m : SMap V) (k k' : String) (v : V)
    (h : k' ≠ k) : (m.set k v).get k' = m.get k' := by
  simp [get, set, h]

theorem get_del_self {V : Type} (m : SMap V) (k : String) :
    (m.del k).get k = none := by
  simp [get, del]

theorem get_del_ne {V : Type} (m : SMap V) (k k' : String)
    (h : k' ≠ k) : (m.del k).get k' = m.get k' := by
  simp [get, del, h]

end SMap

/-! ## Data model of `src/auth.ts` -/

/-- The fields of `OAuthClientInformationFull` used by this subsystem.
`client_name` is optional in the SDK type. -/
structure OAuthClientInformationFull where
  client_id : String
  client_name : Option String
deriving DecidableEq, Repr

/-- The fields of `AuthorizationParams` used by this subsystem. -/
structure AuthorizationParams where
  redirectUri : String
  codeChallenge : String
  state : Option String
  scopes : Option (List String)
deriving DecidableEq, Repr

/-- Source: `interface PendingCode` (src/auth.ts:41-45). -/
structure PendingCode where
  client : OAuthClientInformationFull
  params : AuthorizationParams
  geminiApiKey : String
deriving DecidableEq, Repr

/-- Source: `interface StoredToken` (src/auth.ts:47-52). -/
structure StoredToken where
  clientId : String
  scopes : List String
  expiresAt : ℤ
  geminiApiKey : String
deriving DecidableEq, Repr

/-- The `OAuthTokens` record returned by a successful exchange. -/
structure OAuthTokens where
  access_token : String
  token_type : String
  expires_in : ℤ
deriving DecidableEq, Repr

/-- The `AuthInfo` record returned by `verifyAccessToken` (src/auth.ts:167-172).
Note it has no field for the Gemini API key: the carried secret is not part
of the verification result. -/
structure AuthInfo where
  token : String
  clientId : String
  scopes : List String
  expiresAt : ℤ
deriving DecidableEq, Repr

/-- Source: `const TOKEN_TTL_SECONDS = 3600` (src/auth.ts:56). -/
def TOKEN_TTL_SECONDS : ℤ := 3600

/-- The mutable state of a `GeminiKeyOAuthProvider` together with its
`InMemoryClientsStore` (src/auth.ts:19-69). -/
structure ProviderState where
  clients : SMap OAuthClientInformationFull
  codes : SMap PendingCode
  tokens : SMap StoredToken

/-! ## Operations of `GeminiKeyOAuthProvider`

Each operation takes the wall clock `now : ℚ` — the value of
`Date.now() / 1000` — where the source reads the clock. -/

/-- Source: `getGeminiApiKey` (src/auth.ts:74-82): look up the Gemini API key for an
access token, evicting the token if it is expired. -/
def getGeminiApiKey (s : ProviderState) (now : ℚ) (accessToken : String) :
    Option String × ProviderState :=
  match s.tokens.get accessToken with
  | none => (none, s)
  | some stored =>
    if now > (stored.expiresAt : ℚ) then
      (none, { s with tokens := s.tokens.del accessToken })
    else
      (some stored.geminiApiKey, s)

/-- Source: `completeAuthorization` (src/auth.ts:101-118), state part: store the
pending grant under the freshly generated `code`.  (The redirect response it
also builds is pure I/O and carries no provider state.) -/
def completeAuthorization (s : ProviderState)
    (client : OAuthClientInformationFull) (params : AuthorizationParams)
    (geminiApiKey : String) (code : String) : ProviderState :=
  { s with codes := s.codes.set code { client, params, geminiApiKey } }

/-- Source: `exchangeAuthorizationCode` (src/auth.ts:129-152).  `newToken` is the
value of `randomBytes(48).toString("hex")`. -/
def exchangeAuthorizationCode (s : ProviderState) (now : ℚ)
    (newToken : String) (authorizationCode : String) :
    Except String OAuthTokens × ProviderState :=
  match s.codes.get authorizationCode with
  | none => (.error "Unknown authorization code", s)
  | some pending =>
    let codes' := s.codes.del authorizationCode
    let expiresAt : ℤ := ⌊now⌋ + TOKEN_TTL_SECONDS
    let stored : StoredToken :=
      { clientId := pending.client.client_id
        scopes := pending.params.scopes.getD []
        expiresAt := expiresAt
        geminiApiKey := pending.geminiApiKey }
    (.ok { access_token := newToken, token_type := "bearer",
           expires_in := TOKEN_TTL_SECONDS },
     { s with codes := codes', tokens := s.tokens.set newToken stored })

/-- Source: `verifyAccessToken` (src/auth.ts:158-173). -/
def verifyAccessToken (s : ProviderState) (now : ℚ) (token : String) :
    Except String AuthInfo × ProviderState :=
  match s.tokens.get token with
  | none => (.error "Invalid access token", s)
  | some stored =>
    if now > (stored.expiresAt : ℚ) then
      (.error "Access token expired", { s with tokens := s.tokens.del token })
    else
      (.ok { token := token, clientId := stored.clientId,
             scopes := stored.scopes, expiresAt := stored.expiresAt }, s)

/-! ## Data model of `src/remote.ts` -/

/-- Source: `const SESSION_TIMEOUT_MS = 30 * 60 * 1000` (src/remote.ts:12). -/
def SESSION_TIMEOUT_MS : ℤ := 30 * 60 * 1000

/-- Source: `interface Session` (src/remote.ts:14-18).  The transport and the MCP
adapter instance are opaque handles; the identity of a session is its key in
the table, so only the mutable `lastActivity` timestamp (milliseconds, the
value of `Date.now()`) is modelled. -/
structure Session where
  lastActivity : ℤ
deriving DecidableEq, Repr

/-- The `sessions` table (src/remote.ts:20). -/
def SessionMap : Type := SMap Session

/-- A JSON value, the shape of a parsed request body. -/
inductive Json where
  | null : Json
  | bool (b : Bool) : Json
  | num (n : ℤ) : Json
  | str (s : String) : Json
  | arr (elems : List Json) : Json
  | obj (fields : List (String × Json)) : Json

/-- The element check inside `isInitializeRequest` (src/remote.ts:138):
`typeof msg === "object" && msg !== null && msg.method === "initialize"`.
In JS, arrays also have `typeof "object"` but have no `method` property, and
`null` is excluded explicitly, so only an object with a string field
`method` equal to `"initialize"` passes. -/
def msgIsInitialize : Json → Bool
  | .obj fields =>
    match fields.lookup "method" with
    | some (.str m) => m == "initialize"
    | _ => false
  | _ => false

/-- Source: `isInitializeRequest` (src/remote.ts:135-142): for a batch (array) body,
`body.some(...)` — true when ANY element is an initialize message; otherwise
the single-message check. -/
def isInitializeRequest : Json → Bool
  | .arr msgs => msgs.any msgIsInitialize
  | body => msgIsInitialize body

/-- The periodic cleanup sweep (src/remote.ts:24-32): for every session with
`now - session.lastActivity > SESSION_TIMEOUT_MS`, close its transport and
delete it from the table.  The loop's effect on the table is pointwise. -/
def cleanupSweep (now : ℤ) (sessions : SessionMap) : SessionMap :=
  fun id =>
    match sessions id with
    | some s =>
      if now - s.lastActivity > SESSION_TIMEOUT_MS then none else some s
    | none => none

/-- The set of sessions whose transport the sweep at `now` closes
(src/remote.ts:28): exactly the stale entries the sweep removes. -/
def sweepCloses (now : ℤ) (sessions : SessionMap) (id : String) : Bool :=
  match sessions id with
  | some s => decide (now - s.lastActivity > SESSION_TIMEOUT_MS)
  | none => false

/-- Response outcome of an `/mcp` route handler. -/
inductive McpResult where
  /-- Source: `res.status(st).json(\x7b error \x7d)` with the given status and text. -/
  | errorResponse (status : ℤ) (error : String) : McpResult
  /-- the request was forwarded to an existing session's transport. -/
  | handled : McpResult
  /-- a new session was created and the request forwarded to its transport. -/
  | handledNewSession : McpResult
deriving DecidableEq, Repr

/-- Source: `app.post("/mcp", ...)` (src/remote.ts:146-190).  `apiKey` is the result
of `resolveApiKey`, `sessionId` the `mcp-session-id` header, `now` the value
of `Date.now()`, and `newId` the `randomUUID()` the transport's
`sessionIdGenerator` would produce (stored by `onsessioninitialized`). -/
def handleMcpPost (apiKey : Option String) (sessionId : Option String)
    (body : Json) (now : ℤ) (newId : String) (sessions : SessionMap) :
    McpResult × SessionMap :=
  match apiKey with
  | none =>
    (.errorResponse 401
      "Missing API key. Authorize via OAuth or set GEMINI_API_KEY env var on server.",
     sessions)
  | some _ =>
    match sessionId with
    | some sid =>
      match sessions.get sid with
      | none =>
        (.errorResponse 404
          "Session not found. Send an initialize request to start a new session.",
         sessions)
      | some _ => (.handled, sessions.set sid { lastActivity := now })
    | none =>
      if isInitializeRequest body then
        (.handledNewSession, sessions.set newId { lastActivity := now })
      else
        (.errorResponse 400
          "Missing mcp-session-id header. Send an initialize request first.",
         sessions)

/-- Source: `app.delete("/mcp", ...)` (src/remote.ts:209-224): explicit session
close. -/
def handleMcpDelete (sessionId : Option String) (sessions : SessionMap) :
    McpResult × SessionMap :=
  match sessionId with
  | none => (.errorResponse 400 "Missing mcp-session-id header.", sessions)
  | some sid =>
    match sessions.get sid with
    | none => (.errorResponse 404 "Session not found.", sessions)
    | some _ => (.handled, sessions.del sid)

/-! ## `escapeHtml` (src/auth.ts:275-282)

JS strings are modelled as `List Char`.  Each `.replace(/c/g, r)` with a
single-character pattern replaces every occurrence of `c` by `r`, left to
right. -/

/-- A single global single-character replace, `str.replace(/c/g, r)`. -/
def replaceAll (c : Char) (r : List Char) : List Char → List Char
  | [] => []
  | x :: xs => if x = c then r ++ replaceAll c r xs else x :: replaceAll c r xs

/-- Source: `"&amp;"` -/
def ampEntity : List Char := ['&', 'a', 'm', 'p', ';']
/-- Source: `"&lt;"` -/
def ltEntity : List Char := ['&', 'l', 't', ';']
/-- Source: `"&gt;"` -/
def gtEntity : List Char := ['&', 'g', 't', ';']
/-- Source: `"&quot;"` -/
def quotEntity : List Char := ['&', 'q', 'u', 'o', 't', ';']
/-- Source: `"&#39;"` -/
def aposEntity : List Char := ['&', '#', '3', '9', ';']

/-- Source: `escapeHtml` (src/auth.ts:275-282): the five chained global replaces, in
source order (`&` first, then `<`, `>`, `"`, `'`). -/
def escapeHtml (str : List Char) : List Char :=
  replaceAll '\x27' aposEntity
    (replaceAll '\x22' quotEntity
      (replaceAll '>' gtEntity
        (replaceAll '<' ltEntity
          (replaceAll '&' ampEntity str))))

/-- The per-character effect of the five chained replaces. -/
def htmlEntity (c : Char) : List Char :=
  if c = '&' then ampEntity
  else if c = '<' then ltEntity
  else if c = '>' then gtEntity
  else if c = '\x22' then quotEntity
  else if c = '\x27' then aposEntity
  else [c]

theorem replaceAll_append (c : Char) (r a b : List Char) :
    replaceAll c r (a ++ b) = replaceAll c r a ++ replaceAll c r b := by
  induction a with
  | nil => rfl
  | cons x xs ih =>
    by_cases hx : x = c <;> simp [replaceAll, hx, ih]

theorem escapeHtml_append (a b : List Char) :
    escapeHtml (a ++ b) = escapeHtml a ++ escapeHtml b := by
  simp [escapeHtml, replaceAll_append]

theorem escapeHtml_nil : escapeHtml [] = [] := rfl

theorem escapeHtml_single (x : Char) : escapeHtml [x] = htmlEntity x := by
  by_cases h1 : x = '&'
  · subst h1; rfl
  by_cases h2 : x = '<'
  · subst h2; rfl
  by_cases h3 : x = '>'
  · subst h3; rfl
  by_cases h4 : x = '\x22'
  · subst h4; rfl
  by_cases h5 : x = '\x27'
  · subst h5; rfl
  · simp [escapeHtml, replaceAll, htmlEntity, h1, h2, h3, h4, h5]

theorem escapeHtml_eq_flatMap (s : List Char) :
    escapeHtml s = s.flatMap htmlEntity := by
  induction s with
  | nil => rfl
  | cons x xs ih =>
    calc escapeHtml (x :: xs) = escapeHtml ([x] ++ xs) := rfl
      _ = escapeHtml [x] ++ escapeHtml xs := escapeHtml_append _ _
      _ = htmlEntity x ++ xs.flatMap htmlEntity := by
          rw [escapeHtml_single, ih]
      _ = (x :: xs).flatMap htmlEntity := (List.flatMap_cons ..).symm

/-- The four characters that could break out of an attribute or open a tag. -/
def dangerousChar (c : Char) : Prop :=
  c = '<' ∨ c = '>' ∨ c = '\x22' ∨ c = '\x27'

theorem htmlEntity_no_dangerous (x c : Char) (hc : dangerousChar c)
    (hmem : c ∈ htmlEntity x) : False := by
  unfold htmlEntity at hmem
  split_ifs at hmem with h1 h2 h3 h4 h5
  · rcases hc with h | h | h | h <;> subst h <;> exact absurd hmem (by decide)
  · rcases hc with h | h | h | h <;> subst h <;> exact absurd hmem (by decide)
  · rcases hc with h | h | h | h <;> subst h <;> exact absurd hmem (by decide)
  · rcases hc with h | h | h | h <;> subst h <;> exact absurd hmem (by decide)
  · rcases hc with h | h | h | h <;> subst h <;> exact absurd hmem (by decide)
  · rw [List.mem_singleton] at hmem
    subst hmem
    rcases hc with h | h | h | h
    · exact h2 h
    · exact h3 h
    · exact h4 h
    · exact h5 h

theorem escapeHtml_no_dangerous (s : List Char) (c : Char)
    (hc : dangerousChar c) (hmem : c ∈ escapeHtml s) : False := by
  rw [escapeHtml_eq_flatMap] at hmem
  rcases List.mem_flatMap.mp hmem with ⟨x, _, hx⟩
  exact htmlEntity_no_dangerous x c hc hx

theorem count_escapeHtml_eq_zero (s : List Char) (c : Char)
    (hc : dangerousChar c) : (escapeHtml s).count c = 0 :=
  List.count_eq_zero.mpr (fun h => escapeHtml_no_dangerous s c hc h)

/-! ## `buildAuthorizePage` (src/auth.ts:178-273)

The template literal split at its `${...}` interpolation points.  Literal
brace characters of the CSS are written `\x7b` / `\x7d` and apostrophes
`\x27`; the text is byte-for-byte that of the source. -/

/-- Template text before `${escapeHtml(clientName)}`. -/
def pageA0 : String := "<!DOCTYPE html>
<html lang=\"en\">
<head>
  <meta charset=\"utf-8\">
  <meta name=\"viewport\" content=\"width=device-width, initial-scale=1\">
  <title>Authorize - text2image MCP</title>
  <style>
    * \x7b box-sizing: border-box; margin: 0; padding: 0; \x7d
    body \x7b
      font-family: -apple-system, BlinkMacSystemFont, \x27Segoe UI\x27, Roboto, sans-serif;
      background: #0f0f0f;
      color: #e0e0e0;
      display: flex;
      justify-content: center;
      align-items: center;
      min-height: 100vh;
      padding: 1rem;
    \x7d
    .card \x7b
      background: #1a1a1a;
      border: 1px solid #333;
      border-radius: 12px;
      padding: 2rem;
      max-width: 420px;
      width: 100%;
    \x7d
    h1 \x7b font-size: 1.4rem; margin-bottom: 0.25rem; color: #fff; \x7d
    .subtitle \x7b color: #888; font-size: 0.9rem; margin-bottom: 1.5rem; \x7d
    .client-name \x7b color: #60a5fa; font-weight: 600; \x7d
    label \x7b display: block; font-size: 0.85rem; color: #aaa; margin-bottom: 0.4rem; \x7d
    input[type=\"password\"] \x7b
      width: 100%;
      padding: 0.7rem 0.8rem;
      background: #111;
      border: 1px solid #444;
      border-radius: 8px;
      color: #fff;
      font-size: 0.95rem;
      outline: none;
      transition: border-color 0.2s;
    \x7d
    input[type=\"password\"]:focus \x7b border-color: #60a5fa; \x7d
    .help \x7b font-size: 0.75rem; color: #666; margin-top: 0.4rem; \x7d
    .help a \x7b color: #60a5fa; text-decoration: none; \x7d
    .help a:hover \x7b text-decoration: underline; \x7d
    button \x7b
      width: 100%;
      margin-top: 1.5rem;
      padding: 0.75rem;
      background: #2563eb;
      color: #fff;
      border: none;
      border-radius: 8px;
      font-size: 1rem;
      font-weight: 600;
      cursor: pointer;
      transition: background 0.2s;
    \x7d
    button:hover \x7b background: #1d4ed8; \x7d
    .field \x7b margin-bottom: 1rem; \x7d
  </style>
</head>
<body>
  <div class=\"card\">
    <h1>text2image MCP</h1>
    <p class=\"subtitle\">
      <span class=\"client-name\">"

/-- Template text between the client name and `${escapeHtml(client.client_id)}`. -/
def pageA1 : String := "</span> wants to connect.
      Enter your Gemini API key to authorize.
    </p>
    <form method=\"POST\" action=\"/oauth/authorize/submit\">
      <input type=\"hidden\" name=\"client_id\" value=\""

/-- Template text up to `${escapeHtml(params.redirectUri)}`. -/
def pageA2 : String := "\">
      <input type=\"hidden\" name=\"redirect_uri\" value=\""

/-- Template text up to `${escapeHtml(params.codeChallenge)}`. -/
def pageA3 : String := "\">
      <input type=\"hidden\" name=\"code_challenge\" value=\""

/-- Template text up to the conditional state field. -/
def pageA4 : String := "\">
      "

/-- Template text between the state field and the conditional scopes field. -/
def pageA5 : String := "
      "

/-- Template text after the scopes field, to the end of the page. -/
def pageA6 : String := "
      <div class=\"field\">
        <label for=\"gemini_api_key\">Gemini API Key</label>
        <input type=\"password\" id=\"gemini_api_key\" name=\"gemini_api_key\"
               placeholder=\"AIza...\" required autocomplete=\"off\">
        <p class=\"help\">
          Get a free key at
          <a href=\"https://aistudio.google.com/apikey\" target=\"_blank\" rel=\"noopener\">aistudio.google.com/apikey</a>
        </p>
      </div>
      <button type=\"submit\">Authorize</button>
    </form>
  </div>
</body>
</html>"

/-- Opening of the hidden `state` field, up to its value. -/
def stateOpen : String := "<input type=\"hidden\" name=\"state\" value=\""

/-- Opening of the hidden `scopes` field, up to its value. -/
def scopesOpen : String := "<input type=\"hidden\" name=\"scopes\" value=\""

/-- Close of a hidden field after its value. -/
def attrClose : String := "\">"

/-- Source: `const clientName = client.client_name || client.client_id`
(src/auth.ts:182): JS `||` also rejects the empty string (falsy). -/
def clientDisplayName (client : OAuthClientInformationFull) : String :=
  match client.client_name with
  | some n => if n = "" then client.client_id else n
  | none => client.client_id

/-- Source: `${params.state ? `...` : ""}` (src/auth.ts:257): the hidden state field,
rendered only when `params.state` is truthy (present and non-empty). -/
def statePart (params : AuthorizationParams) : List Char :=
  match params.state with
  | some st =>
    if st = "" then []
    else stateOpen.toList ++ escapeHtml st.toList ++ attrClose.toList
  | none => []

/-- Source: `${params.scopes ? `...` : ""}` (src/auth.ts:258): the hidden scopes
field; a JS array is always truthy, so any present list renders. -/
def scopesPart (params : AuthorizationParams) : List Char :=
  match params.scopes with
  | some sc =>
    scopesOpen.toList ++ escapeHtml (String.intercalate " " sc).toList
      ++ attrClose.toList
  | none => []

/-- Whether the template renders the hidden state field. -/
def stateRendered (params : AuthorizationParams) : Bool :=
  match params.state with
  | some st => if st = "" then false else true
  | none => false

/-- Source: `buildAuthorizePage` (src/auth.ts:178-273) as the character sequence of
the rendered page: fixed template segments interleaved with the
`escapeHtml`-ed parameters. -/
def buildAuthorizePage (client : OAuthClientInformationFull)
    (params : AuthorizationParams) : List Char :=
  pageA0.toList ++ escapeHtml (clientDisplayName client).toList
    ++ pageA1.toList ++ escapeHtml client.client_id.toList
    ++ pageA2.toList ++ escapeHtml params.redirectUri.toList
    ++ pageA3.toList ++ escapeHtml params.codeChallenge.toList
    ++ pageA4.toList ++ statePart params
    ++ pageA5.toList ++ scopesPart params
    ++ pageA6.toList

theorem statePart_none (p : AuthorizationParams) (h : p.state = none) :
    statePart p = [] := by
  unfold statePart; rw [h]

theorem statePart_some (p : AuthorizationParams) (st : String)
    (h : p.state = some st) :
    statePart p = if st = "" then []
      else stateOpen.toList ++ escapeHtml st.toList ++ attrClose.toList := by
  unfold statePart; rw [h]

theorem stateRendered_none (p : AuthorizationParams) (h : p.state = none) :
    stateRendered p = false := by
  unfold stateRendered; rw [h]

theorem stateRendered_some (p : AuthorizationParams) (st : String)
    (h : p.state = some st) :
    stateRendered p = if st = "" then false else true := by
  unfold stateRendered; rw [h]

theorem scopesPart_none (p : AuthorizationParams) (h : p.scopes = none) :
    scopesPart p = [] := by
  unfold scopesPart; rw [h]

theorem scopesPart_some (p : AuthorizationParams) (sc : List String)
    (h : p.scopes = some sc) :
    scopesPart p = scopesOpen.toList
      ++ escapeHtml (String.intercalate " " sc).toList ++ attrClose.toList := by
  unfold scopesPart; rw [h]

theorem count_statePart (p p' : AuthorizationParams) (c : Char)
    (hc : dangerousChar c) (h : stateRendered p = stateRendered p') :
    (statePart p).count c = (statePart p').count c := by
  cases hs : p.state with
  | none =>
    cases hs' : p'.state with
    | none => rw [statePart_none p hs, statePart_none p' hs']
    | some st' =>
      rw [stateRendered_none p hs, stateRendered_some p' st' hs'] at h
      rw [statePart_none p hs, statePart_some p' st' hs']
      split_ifs with h1
      · rfl
      · simp [h1] at h
  | some st =>
    cases hs' : p'.state with
    | none =>
      rw [stateRendered_some p st hs, stateRendered_none p' hs'] at h
      rw [statePart_some p st hs, statePart_none p' hs']
      split_ifs with h1
      · rfl
      · simp [h1] at h
    | some st' =>
      rw [stateRendered_some p st hs, stateRendered_some p' st' hs'] at h
      rw [statePart_some p st hs, statePart_some p' st' hs']
      by_cases e1 : st = ""
      · by_cases e2 : st' = ""
        · rw [if_pos e1, if_pos e2]
        · rw [if_pos e1, if_neg e2] at h; simp at h
      · by_cases e2 : st' = ""
        · rw [if_neg e1, if_pos e2] at h; simp at h
        · rw [if_neg e1, if_neg e2]
          simp [List.count_append, count_escapeHtml_eq_zero _ _ hc]

theorem count_scopesPart (p p' : AuthorizationParams) (c : Char)
    (hc : dangerousChar c) (h : p.scopes.isSome = p'.scopes.isSome) :
    (scopesPart p).count c = (scopesPart p').count c := by
  cases hs : p.scopes with
  | none =>
    cases hs' : p'.scopes with
    | none => rw [scopesPart_none p hs, scopesPart_none p' hs']
    | some sc' => rw [hs, hs'] at h; simp at h
  | some sc =>
    cases hs' : p'.scopes with
    | none => rw [hs, hs'] at h; simp at h
    | some sc' =>
      rw [scopesPart_some p sc hs, scopesPart_some p' sc' hs']
      simp [List.count_append, count_escapeHtml_eq_zero _ _ hc]

/-! ## Concrete instances used by witnesses -/

/-- A sample registered client. -/
def clientEx : OAuthClientInformationFull :=
  { client_id := "cid-1", client_name := some "Example Client" }

/-- Sample authorization parameters. -/
def paramsEx : AuthorizationParams :=
  { redirectUri := "https://client.example/cb", codeChallenge := "chal"
    state := some "xyz", scopes := some ["mcp"] }

/-- A sample pending authorization grant. -/
def pendingEx : PendingCode :=
  { client := clientEx, params := paramsEx, geminiApiKey := "AIzaSecret" }

/-- A provider holding exactly one pending code, `"code-1"`. -/
def stateEx : ProviderState :=
  { clients := SMap.empty.set "cid-1" clientEx
    codes := SMap.empty.set "code-1" pendingEx
    tokens := SMap.empty }

/-- A sample issued token record expiring at second 3600. -/
def storedEx : StoredToken :=
  { clientId := "cid-1", scopes := ["mcp"], expiresAt := 3600
    geminiApiKey := "AIzaSecret" }

/-- A provider holding exactly one issued token, `"tok-1"`. -/
def stateTokEx : ProviderState :=
  { clients := SMap.empty, codes := SMap.empty
    tokens := SMap.empty.set "tok-1" storedEx }

/-! ## Claims about `src/auth.ts` -/

/-- C1: an authorization code is exchangeable at most once.  A successful
exchange consumes the code, so a second exchange of the same code — and any
exchange of a code never issued — fails with the same
`"Unknown authorization code"` error, and of two attempts on the same code
run one after the other (the interleaving order of the single-threaded
runtime) exactly the first succeeds. -/
theorem C1_exchange_at_most_once (s : ProviderState) (code tok1 tok2 : String)
    (now1 now2 : ℚ) (pending : PendingCode)
    (h : s.codes.get code = some pending) :
    (∃ res s1, exchangeAuthorizationCode s now1 tok1 code = (.ok res, s1)
      ∧ exchangeAuthorizationCode s1 now2 tok2 code
          = (.error "Unknown authorization code", s1))
    ∧ (∀ s0 : ProviderState, s0.codes.get code = none →
        exchangeAuthorizationCode s0 now1 tok1 code
          = (.error "Unknown authorization code", s0)) := by
  constructor
  · refine ⟨{ access_token := tok1, token_type := "bearer",
              expires_in := TOKEN_TTL_SECONDS },
      { s with codes := s.codes.del code,
               tokens := s.tokens.set tok1
                 { clientId := pending.client.client_id,
                   scopes := pending.params.scopes.getD [],
                   expiresAt := ⌊now1⌋ + TOKEN_TTL_SECONDS,
                   geminiApiKey := pending.geminiApiKey } }, ?_, ?_⟩
    · unfold exchangeAuthorizationCode
      rw [h]
    · simp [exchangeAuthorizationCode, SMap.get_del_self]
  · intro s0 h0
    unfold exchangeAuthorizationCode
    rw [h0]

/-- Witness for C1 at a concrete provider state. -/
theorem C1_witness :
    stateEx.codes.get "code-1" = some pendingEx
    ∧ ((∃ res s1,
          exchangeAuthorizationCode stateEx 10 "tok-1" "code-1" = (.ok res, s1)
          ∧ exchangeAuthorizationCode s1 11 "tok-2" "code-1"
              = (.error "Unknown authorization code", s1))
       ∧ (∀ s0 : ProviderState, s0.codes.get "code-1" = none →
            exchangeAuthorizationCode s0 10 "tok-1" "code-1"
              = (.error "Unknown authorization code", s0))) :=
  ⟨rfl, C1_exchange_at_most_once stateEx "code-1" "tok-1" "tok-2" 10 11
    pendingEx rfl⟩

/-- C2: `verifyAccessToken` fails with `"Invalid access token"` on an unknown
token; past `expiresAt` it fails with the distinct error
`"Access token expired"` and evicts the record, so an immediate re-verify
fails as unknown; on success it returns exactly the token, owning client id,
scopes and expiry — the returned `AuthInfo` has no field carrying the stored
Gemini API key. -/
theorem C2_verifyToken (s : ProviderState) (now : ℚ) (token : String) :
    (s.tokens.get token = none →
      verifyAccessToken s now token = (.error "Invalid access token", s))
    ∧ (∀ stored : StoredToken, s.tokens.get token = some stored →
        now > (stored.expiresAt : ℚ) →
        verifyAccessToken s now token
          = (.error "Access token expired",
             { s with tokens := s.tokens.del token })
        ∧ ({ s with tokens := s.tokens.del token } :
            ProviderState).tokens.get token = none
        ∧ verifyAccessToken { s with tokens := s.tokens.del token } now token
            = (.error "Invalid access token",
               { s with tokens := s.tokens.del token }))
    ∧ (∀ stored : StoredToken, s.tokens.get token = some stored →
        ¬ now > (stored.expiresAt : ℚ) →
        verifyAccessToken s now token
          = (.ok { token := token, clientId := stored.clientId,
                   scopes := stored.scopes, expiresAt := stored.expiresAt },
             s))
    ∧ ("Invalid access token" : String) ≠ "Access token expired" := by
  refine ⟨?_, ?_, ?_, by decide⟩
  · intro h0
    unfold verifyAccessToken
    rw [h0]
  · intro stored hst hexp
    refine ⟨?_, SMap.get_del_self _ _, ?_⟩
    · simp [verifyAccessToken, hst, hexp]
    · simp [verifyAccessToken, SMap.get_del_self]
  · intro stored hst hexp
    simp [verifyAccessToken, hst, hexp]

/-- Witness for C2: the stored token of `stateTokEx` verified at second 10
succeeds with the stored identity; verified at second 3601 it is expired,
evicted, and subsequently invalid. -/
theorem C2_witness :
    (stateTokEx.tokens.get "tok-9" = none
      ∧ verifyAccessToken stateTokEx 10 "tok-9"
          = (.error "Invalid access token", stateTokEx))
    ∧ (stateTokEx.tokens.get "tok-1" = some storedEx
      ∧ (3601 : ℚ) > (storedEx.expiresAt : ℚ)
      ∧ verifyAccessToken stateTokEx 3601 "tok-1"
          = (.error "Access token expired",
             { stateTokEx with tokens := stateTokEx.tokens.del "tok-1" })
      ∧ ({ stateTokEx with tokens := stateTokEx.tokens.del "tok-1" } :
          ProviderState).tokens.get "tok-1" = none
      ∧ verifyAccessToken
          { stateTokEx with tokens := stateTokEx.tokens.del "tok-1" } 3601 "tok-1"
          = (.error "Invalid access token",
             { stateTokEx with tokens := stateTokEx.tokens.del "tok-1" }))
    ∧ (¬ (10 : ℚ) > (storedEx.expiresAt : ℚ)
      ∧ verifyAccessToken stateTokEx 10 "tok-1"
          = (.ok { token := "tok-1", clientId := storedEx.clientId,
                   scopes := storedEx.scopes, expiresAt := storedEx.expiresAt },
             stateTokEx)) := by
  have hexp : (3601 : ℚ) > (storedEx.expiresAt : ℚ) := by
    unfold storedEx; norm_num
  have hok : ¬ (10 : ℚ) > (storedEx.expiresAt : ℚ) := by
    unfold storedEx; norm_num
  refine ⟨⟨rfl, (C2_verifyToken stateTokEx 10 "tok-9").1 rfl⟩,
    ⟨rfl, hexp, (C2_verifyToken stateTokEx 3601 "tok-1").2.1 storedEx rfl hexp⟩,
    hok, (C2_verifyToken stateTokEx 10 "tok-1").2.2.1 storedEx rfl hok⟩

/-- C3: the secret submitted at authorization time round-trips byte-for-byte:
storing it with `completeAuthorization`, exchanging the issued code, and
resolving the secret from the resulting access token before its expiry
returns exactly the submitted string (special characters included — strings
are compared as character sequences, and the secret never passes through
`escapeHtml`). -/
theorem C3_secret_roundtrip (s : ProviderState)
    (client : OAuthClientInformationFull) (params : AuthorizationParams)
    (geminiApiKey code tok : String) (now nowR : ℚ)
    (hexp : ¬ nowR > ((⌊now⌋ + TOKEN_TTL_SECONDS : ℤ) : ℚ)) :
    ∃ res s2,
      exchangeAuthorizationCode
        (completeAuthorization s client params geminiApiKey code) now tok code
        = (.ok res, s2)
      ∧ res.access_token = tok
      ∧ (getGeminiApiKey s2 nowR tok).1 = some geminiApiKey := by
  refine ⟨{ access_token := tok, token_type := "bearer",
            expires_in := TOKEN_TTL_SECONDS },
    { clients := s.clients,
      codes := (s.codes.set code
        { client := client, params := params,
          geminiApiKey := geminiApiKey }).del code,
      tokens := s.tokens.set tok
        { clientId := client.client_id,
          scopes := params.scopes.getD [],
          expiresAt := ⌊now⌋ + TOKEN_TTL_SECONDS,
          geminiApiKey := geminiApiKey } }, ?_, rfl, ?_⟩
  · simp [exchangeAuthorizationCode, completeAuthorization, SMap.get_set_self]
  · have hexp' : ¬ ((⌊now⌋ : ℚ) + (TOKEN_TTL_SECONDS : ℚ) < nowR) := by
      push_cast at hexp
      exact hexp
    simp [getGeminiApiKey, SMap.get_set_self, hexp']

/-- Witness for C3 with a secret containing `&`, `<` and `"`. -/
theorem C3_witness :
    (¬ (7 : ℚ) > ((⌊(5 : ℚ)⌋ + TOKEN_TTL_SECONDS : ℤ) : ℚ))
    ∧ ∃ res s2,
        exchangeAuthorizationCode
          (completeAuthorization stateEx clientEx paramsEx "A&B<C\x22D" "code-9")
          5 "tok-5" "code-9"
          = (.ok res, s2)
        ∧ res.access_token = "tok-5"
        ∧ (getGeminiApiKey s2 7 "tok-5").1 = some "A&B<C\x22D" := by
  have h : ¬ (7 : ℚ) > ((⌊(5 : ℚ)⌋ + TOKEN_TTL_SECONDS : ℤ) : ℚ) := by
    rw [show ⌊(5 : ℚ)⌋ = 5 from by norm_num]
    unfold TOKEN_TTL_SECONDS
    norm_num
  exact ⟨h, C3_secret_roundtrip stateEx clientEx paramsEx "A&B<C\x22D"
    "code-9" "tok-5" 5 7 h⟩

/-- C4: a successful exchange deletes the pending grant, stores a token
record carrying the grant's client id, scopes and secret with
`expiresAt = ⌊now⌋ + TOKEN_TTL_SECONDS`, and returns the token value with
type `"bearer"` and `expires_in = TOKEN_TTL_SECONDS`, where
`TOKEN_TTL_SECONDS = 3600` (one hour). -/
theorem C4_exchange_success (s : ProviderState) (now : ℚ)
    (tok code : String) (pending : PendingCode)
    (h : s.codes.get code = some pending) :
    exchangeAuthorizationCode s now tok code
      = (.ok { access_token := tok, token_type := "bearer",
               expires_in := TOKEN_TTL_SECONDS },
         { s with codes := s.codes.del code,
                  tokens := s.tokens.set tok
                    { clientId := pending.client.client_id,
                      scopes := pending.params.scopes.getD [],
                      expiresAt := ⌊now⌋ + TOKEN_TTL_SECONDS,
                      geminiApiKey := pending.geminiApiKey } })
    ∧ TOKEN_TTL_SECONDS = 3600 := by
  refine ⟨?_, rfl⟩
  unfold exchangeAuthorizationCode
  rw [h]

/-- Witness for C4 at the concrete provider state `stateEx`. -/
theorem C4_witness :
    stateEx.codes.get "code-1" = some pendingEx
    ∧ (exchangeAuthorizationCode stateEx 10 "tok-1" "code-1"
        = (.ok { access_token := "tok-1", token_type := "bearer",
                 expires_in := TOKEN_TTL_SECONDS },
           { stateEx with codes := stateEx.codes.del "code-1",
                          tokens := stateEx.tokens.set "tok-1"
                            { clientId := pendingEx.client.client_id,
                              scopes := pendingEx.params.scopes.getD [],
                              expiresAt := ⌊(10 : ℚ)⌋ + TOKEN_TTL_SECONDS,
                              geminiApiKey := pendingEx.geminiApiKey } })
      ∧ TOKEN_TTL_SECONDS = 3600) :=
  ⟨rfl, C4_exchange_success stateEx 10 "tok-1" "code-1" pendingEx rfl⟩

/-- C10: `exchangeAuthorizationCode` mutates only what it concerns.  On
success (the code is pending and the generated token value is fresh) it
removes exactly the exchanged code, adds exactly one token entry, and leaves
every other pending code, every other issued token, and the client registry
untouched; on an unknown code it returns the state unchanged. -/
theorem C10_exchange_frame (s : ProviderState) (now : ℚ)
    (tok code : String) (pending : PendingCode)
    (hcode : s.codes.get code = some pending)
    (htok : s.tokens.get tok = none) :
    ((exchangeAuthorizationCode s now tok code).2.codes.get code = none)
    ∧ (∀ c, c ≠ code →
        (exchangeAuthorizationCode s now tok code).2.codes.get c
          = s.codes.get c)
    ∧ ((exchangeAuthorizationCode s now tok code).2.tokens.get tok
        = some { clientId := pending.client.client_id,
                 scopes := pending.params.scopes.getD [],
                 expiresAt := ⌊now⌋ + TOKEN_TTL_SECONDS,
                 geminiApiKey := pending.geminiApiKey })
    ∧ (∀ t, t ≠ tok →
        (exchangeAuthorizationCode s now tok code).2.tokens.get t
          = s.tokens.get t)
    ∧ ((exchangeAuthorizationCode s now tok code).2.clients = s.clients)
    ∧ (∀ s0 : ProviderState, s0.codes.get code = none →
        exchangeAuthorizationCode s0 now tok code
          = (.error "Unknown authorization code", s0)) := by
  have hx : exchangeAuthorizationCode s now tok code
      = (.ok { access_token := tok, token_type := "bearer",
               expires_in := TOKEN_TTL_SECONDS },
         { s with codes := s.codes.del code,
                  tokens := s.tokens.set tok
                    { clientId := pending.client.client_id,
                      scopes := pending.params.scopes.getD [],
                      expiresAt := ⌊now⌋ + TOKEN_TTL_SECONDS,
                      geminiApiKey := pending.geminiApiKey } }) := by
    unfold exchangeAuthorizationCode
    rw [hcode]
  refine ⟨?_, ?_, ?_, ?_, ?_, ?_⟩
  · rw [hx]; exact SMap.get_del_self _ _
  · intro c hc; rw [hx]; exact SMap.get_del_ne _ _ _ hc
  · rw [hx]; exact SMap.get_set_self _ _ _
  · intro t ht; rw [hx]; exact SMap.get_set_ne _ _ _ _ ht
  · rw [hx]
  · intro s0 h0
    unfold exchangeAuthorizationCode
    rw [h0]

/-- Witness for C10 at the concrete provider state `stateEx`. -/
theorem C10_witness :
    stateEx.codes.get "code-1" = some pendingEx
    ∧ stateEx.tokens.get "tok-1" = none
    ∧ ((exchangeAuthorizationCode stateEx 10 "tok-1" "code-1").2.codes.get
          "code-1" = none)
    ∧ ((exchangeAuthorizationCode stateEx 10 "tok-1" "code-1").2.clients
        = stateEx.clients) := by
  have h := C10_exchange_frame stateEx 10 "tok-1" "code-1" pendingEx rfl rfl
  exact ⟨rfl, rfl, h.1, h.2.2.2.2.1⟩

/-- A client whose display name attempts HTML injection. -/
def clientEx2 : OAuthClientInformationFull :=
  { client_id := "cid-2", client_name := some "<script>alert(1)</script>" }

/-- Authorization parameters carrying attribute-breaking characters. -/
def paramsEx2 : AuthorizationParams :=
  { redirectUri := "https://evil.example/\x22><script>"
    codeChallenge := "x\x22y", state := some "s<t"
    scopes := some ["a", "b&c"] }

/-- C9: every attacker-influenced parameter echoed into the authorize page
passes through `escapeHtml`, and escaping is complete: (1) `escapeHtml`
output never contains a raw `<`, `>`, `"` or `'`; (2) `escapeHtml` rewrites
each occurrence of `&`, `<`, `>`, `"`, `'` to its HTML entity and leaves
every other character unchanged; (3) the number of raw dangerous characters
in the rendered page is a constant of the fixed template: it does not depend
on the client name, client id, redirect target, PKCE challenge, state value
or scope values (only on whether the optional state/scopes fields render at
all). -/
theorem C9_escaping :
    (∀ (s : List Char) (c : Char), dangerousChar c → c ∉ escapeHtml s)
    ∧ (∀ s : List Char, escapeHtml s = s.flatMap htmlEntity)
    ∧ (∀ (client client' : OAuthClientInformationFull)
         (params params' : AuthorizationParams) (c : Char), dangerousChar c →
        stateRendered params = stateRendered params' →
        params.scopes.isSome = params'.scopes.isSome →
        (buildAuthorizePage client params).count c
          = (buildAuthorizePage client' params').count c) := by
  refine ⟨?_, escapeHtml_eq_flatMap, ?_⟩
  · intro s c hc hmem
    exact escapeHtml_no_dangerous s c hc hmem
  · intro client client' params params' c hc hst hsc
    have hz : ∀ l : List Char, (escapeHtml l).count c = 0 :=
      fun l => count_escapeHtml_eq_zero l c hc
    have h1 := count_statePart params params' c hc hst
    have h2 := count_scopesPart params params' c hc hsc
    simp [buildAuthorizePage, List.count_append, hz, h1, h2]

/-- Witness for C9 with injection-shaped inputs: `<` is dangerous, never
survives escaping, and two pages rendered from benign and hostile
parameters contain exactly the same number of raw `<` characters. -/
theorem C9_witness :
    dangerousChar '<'
    ∧ '<' ∉ escapeHtml ['a', '<', 'b']
    ∧ escapeHtml ['a', '<', 'b'] = ['a', '<', 'b'].flatMap htmlEntity
    ∧ stateRendered paramsEx = stateRendered paramsEx2
    ∧ paramsEx.scopes.isSome = paramsEx2.scopes.isSome
    ∧ (buildAuthorizePage clientEx paramsEx).count '<'
        = (buildAuthorizePage clientEx2 paramsEx2).count '<' := by
  have hd : dangerousChar '<' := Or.inl rfl
  exact ⟨hd, C9_escaping.1 ['a', '<', 'b'] '<' hd,
    C9_escaping.2.1 ['a', '<', 'b'], rfl, rfl,
    C9_escaping.2.2 clientEx clientEx2 paramsEx paramsEx2 '<' hd rfl rfl⟩

/-! ## Claims about `src/remote.ts` -/

/-- A sample session record with last activity at millisecond 0. -/
def sessEx : Session := { lastActivity := 0 }

/-- A session table holding exactly one session, `"sess-1"`. -/
def sessionsEx : SessionMap := SMap.empty.set "sess-1" sessEx

/-- C5: one reclaim sweep at time `now` removes (closing its transport)
every session with `now - lastActivity > SESSION_TIMEOUT_MS` and keeps every
other session; in particular a session just bumped by a routed request stays
present at a sweep run within the timeout of the bump. -/
theorem C5_reclaim_sweep (now : ℤ) (sessions : SessionMap) (id : String) :
    (∀ s : Session, sessions.get id = some s →
      (now - s.lastActivity > SESSION_TIMEOUT_MS →
        (cleanupSweep now sessions).get id = none
        ∧ sweepCloses now sessions id = true)
      ∧ (now - s.lastActivity ≤ SESSION_TIMEOUT_MS →
        (cleanupSweep now sessions).get id = some s
        ∧ sweepCloses now sessions id = false))
    ∧ (∀ (k : String) (body : Json) (nowRoute nowSweep : ℤ) (newId : String)
          (s : Session), sessions.get id = some s →
        nowSweep - nowRoute ≤ SESSION_TIMEOUT_MS →
        (cleanupSweep nowSweep
            (handleMcpPost (some k) (some id) body nowRoute newId sessions).2).get
            id = some { lastActivity := nowRoute }) := by
  constructor
  · intro s hs
    have hs' : sessions id = some s := hs
    constructor
    · intro hstale
      constructor
      · simp [cleanupSweep, SMap.get, hs', hstale]
      · simp [sweepCloses, hs', hstale]
    · intro hfresh
      have hnot : ¬ (now - s.lastActivity > SESSION_TIMEOUT_MS) :=
        not_lt.mpr hfresh
      constructor
      · simp [cleanupSweep, SMap.get, hs', hnot]
      · simp [sweepCloses, hs', hnot]
  · intro k body nowRoute nowSweep newId s hs hle
    have hnot : ¬ (nowSweep - nowRoute > SESSION_TIMEOUT_MS) := not_lt.mpr hle
    have hpost : (handleMcpPost (some k) (some id) body nowRoute newId
        sessions).2 = sessions.set id { lastActivity := nowRoute } := by
      simp [handleMcpPost, hs]
    rw [hpost]
    simp [cleanupSweep, SMap.get, SMap.set, hnot]

/-- Witness for C5: a stale session is swept and closed; a fresh one kept;
a just-routed session survives a sweep at the same instant. -/
theorem C5_witness :
    (sessionsEx.get "sess-1" = some sessEx
      ∧ (2000000 : ℤ) - sessEx.lastActivity > SESSION_TIMEOUT_MS
      ∧ (cleanupSweep 2000000 sessionsEx).get "sess-1" = none
      ∧ sweepCloses 2000000 sessionsEx "sess-1" = true)
    ∧ ((1000 : ℤ) - sessEx.lastActivity ≤ SESSION_TIMEOUT_MS
      ∧ (cleanupSweep 1000 sessionsEx).get "sess-1" = some sessEx
      ∧ sweepCloses 1000 sessionsEx "sess-1" = false)
    ∧ ((2000001 : ℤ) - 2000000 ≤ SESSION_TIMEOUT_MS
      ∧ (cleanupSweep 2000001
          (handleMcpPost (some "k") (some "sess-1") Json.null 2000000 "n"
            sessionsEx).2).get "sess-1"
          = some { lastActivity := 2000000 }) := by
  have hstale : (2000000 : ℤ) - sessEx.lastActivity > SESSION_TIMEOUT_MS := by
    unfold sessEx SESSION_TIMEOUT_MS; norm_num
  have hfresh : (1000 : ℤ) - sessEx.lastActivity ≤ SESSION_TIMEOUT_MS := by
    unfold sessEx SESSION_TIMEOUT_MS; norm_num
  have hb : (2000001 : ℤ) - 2000000 ≤ SESSION_TIMEOUT_MS := by
    unfold SESSION_TIMEOUT_MS; norm_num
  refine ⟨⟨rfl, hstale, ?_⟩, ⟨hfresh, ?_⟩, hb, ?_⟩
  · exact ((C5_reclaim_sweep 2000000 sessionsEx "sess-1").1 sessEx rfl).1 hstale
  · exact ((C5_reclaim_sweep 1000 sessionsEx "sess-1").1 sessEx rfl).2 hfresh
  · exact (C5_reclaim_sweep 2000001 sessionsEx "sess-1").2 "k" Json.null
      2000000 2000001 "n" sessEx rfl hb

/-- C6 counterexample: the claim says a request with no session identifier
is treated as session-open only if its FIRST message is an initialize
message.  The code uses `body.some(...)` over a batch, so this batch — whose
first message has method `"ping"` — is nevertheless treated as session-open
and creates a session. -/
theorem C6_counterexample :
    (handleMcpPost (some "k") none
        (.arr [.obj [("method", .str "ping")],
               .obj [("method", .str "initialize")]]) 0 "new-id" SMap.empty).1
      = .handledNewSession
    ∧ ([Json.obj [("method", Json.str "ping")],
        Json.obj [("method", Json.str "initialize")]].head?
        = some (.obj [("method", .str "ping")]))
    ∧ msgIsInitialize (.obj [("method", .str "ping")]) = false := by
  exact ⟨rfl, rfl, rfl⟩

/-- C6 (amended): a request with no session identifier is treated as
session-open exactly when its body is an initialize message or a batch
CONTAINING at least one initialize message; otherwise it is rejected with a
400 client error saying a session id (or an initialize request) is required,
and the session table is unchanged. -/
theorem C6_session_open (k : String) (body : Json) (now : ℤ)
    (newId : String) (sessions : SessionMap) :
    ((handleMcpPost (some k) none body now newId sessions).1
        = .handledNewSession ↔ isInitializeRequest body = true)
    ∧ (isInitializeRequest body = false →
        handleMcpPost (some k) none body now newId sessions
          = (.errorResponse 400
              "Missing mcp-session-id header. Send an initialize request first.",
             sessions))
    ∧ (isInitializeRequest body = true →
        handleMcpPost (some k) none body now newId sessions
          = (.handledNewSession, sessions.set newId { lastActivity := now })) := by
  refine ⟨?_, ?_, ?_⟩
  · constructor
    · intro h
      by_cases hinit : isInitializeRequest body = true
      · exact hinit
      · exfalso
        have hr : (handleMcpPost (some k) none body now newId sessions).1
            = .errorResponse 400
                "Missing mcp-session-id header. Send an initialize request first." := by
          simp [handleMcpPost, hinit]
        rw [hr] at h
        exact McpResult.noConfusion h
    · intro hinit
      simp [handleMcpPost, hinit]
  · intro hinit
    simp [handleMcpPost, hinit]
  · intro hinit
    simp [handleMcpPost, hinit]

/-- Witness for C6 (amended): a bare initialize request opens a session, a
bare ping request is rejected with the 400 error. -/
theorem C6_witness :
    (isInitializeRequest (.obj [("method", .str "initialize")]) = true
      ∧ handleMcpPost (some "k") none (.obj [("method", .str "initialize")])
          5 "new-id" SMap.empty
        = (.handledNewSession, SMap.empty.set "new-id" { lastActivity := 5 }))
    ∧ (isInitializeRequest (.obj [("method", .str "ping")]) = false
      ∧ handleMcpPost (some "k") none (.obj [("method", .str "ping")])
          5 "new-id" SMap.empty
        = (.errorResponse 400
            "Missing mcp-session-id header. Send an initialize request first.",
           SMap.empty)) :=
  ⟨⟨rfl, (C6_session_open "k" (.obj [("method", .str "initialize")]) 5
      "new-id" SMap.empty).2.2 rfl⟩,
   ⟨rfl, (C6_session_open "k" (.obj [("method", .str "ping")]) 5
      "new-id" SMap.empty).2.1 rfl⟩⟩

/-- C7 counterexample: deleting a session whose identifier is absent is NOT
a silent no-op: the handler responds with a 404 "Session not found." error
instead of handling the request. -/
theorem C7_counterexample :
    (handleMcpDelete (some "s-absent") SMap.empty).1
        = .errorResponse 404 "Session not found."
    ∧ (handleMcpDelete (some "s-absent") SMap.empty).1 ≠ .handled := by
  exact ⟨rfl, by decide⟩

/-- C7 (amended): deleting an absent session leaves the session table
unchanged — the table-level removal is idempotent — but the handler reports
it to the caller as a 404 "Session not found." error rather than as
success; deleting a present session removes exactly that session. -/
theorem C7_close_absent (sid : String) (sessions : SessionMap) :
    (sessions.get sid = none →
      handleMcpDelete (some sid) sessions
        = (.errorResponse 404 "Session not found.", sessions))
    ∧ (∀ s : Session, sessions.get sid = some s →
        handleMcpDelete (some sid) sessions = (.handled, sessions.del sid)) := by
  constructor
  · intro h
    simp [handleMcpDelete, h]
  · intro s h
    simp [handleMcpDelete, h]

/-- Witness for C7 (amended) on a concrete empty and one-session table. -/
theorem C7_witness :
    (SMap.empty.get "s-absent" = (none : Option Session)
      ∧ handleMcpDelete (some "s-absent") SMap.empty
          = (.errorResponse 404 "Session not found.", SMap.empty))
    ∧ (sessionsEx.get "sess-1" = some sessEx
      ∧ handleMcpDelete (some "sess-1") sessionsEx
          = (.handled, sessionsEx.del "sess-1")) :=
  ⟨⟨rfl, (C7_close_absent "s-absent" SMap.empty).1 rfl⟩,
   ⟨rfl, (C7_close_absent "sess-1" sessionsEx).2 sessEx rfl⟩⟩

/-- C8: routing a request to a session identifier absent from the table
fails with a 404 NotFound response and returns the table unchanged. -/
theorem C8_unknown_session (k sid : String) (body : Json) (now : ℤ)
    (newId : String) (sessions : SessionMap)
    (h : sessions.get sid = none) :
    handleMcpPost (some k) (some sid) body now newId sessions
      = (.errorResponse 404
          "Session not found. Send an initialize request to start a new session.",
         sessions) := by
  simp [handleMcpPost, h]

/-- Witness for C8 on the concrete one-session table. -/
theorem C8_witness :
    sessionsEx.get "sess-9" = none
    ∧ handleMcpPost (some "k") (some "sess-9") Json.null 5 "n" sessionsEx
        = (.errorResponse 404
            "Session not found. Send an initialize request to start a new session.",
           sessionsEx) :=
  ⟨rfl, C8_unknown_session "k" "sess-9" Json.null 5 "n" sessionsEx rfl⟩
